import Mathlib

/-!
Verification of the CitySculpt baseplate layout code.

The repository builds a tiled ground plane ("baseplate") in a 3D scene.
The core logic is `createBaseplate(scene, width, length, yPosition, tileSize)`
in the scene module: it computes `tilesX = Math.ceil(width / tileSize)` and
`tilesZ = Math.ceil(length / tileSize)`, centering offsets
`offsetX = (tilesX * tileSize) / 2 - tileSize / 2` (likewise `offsetZ`),
and then runs two nested loops (`x` from 0 to `tilesX - 1`, inner `z` from 0
to `tilesZ - 1`) placing one tile per grid cell at
`(x * tileSize - offsetX, yPosition, z * tileSize - offsetZ)`.
A hardcoded flag `useTileAsset = true` selects between an asset-loading
branch and a simple-geometry branch; both compute the same positions.
`setupEnvironment` calls `createBaseplate` with `yPosition = -4` and the
default `tileSize = 4`; `main.js` wires a button whose click handler passes
the parsed width/length inputs straight to `init` → `setupEnvironment`
with no validation.

Numbers are modelled as ℚ (exact arithmetic); `Math.ceil` is the rational
ceiling into ℤ. A JS loop `for (let x = 0; x < n; x++)` with integer bound
`n` runs `n.toNat` iterations, which is 0 when `n ≤ 0`.
-/

/-- A 3D position, modelling the `(x, y, z)` triple given to
`Object3D.position.set`. -/
structure Vec3 where
  x : ℚ
  y : ℚ
  z : ℚ
  deriving DecidableEq

/-- One baseplate tile: its position together with the shadow flags the
code sets on it (`castShadow = false`, `receiveShadow = true` in both
branches). -/
structure Tile where
  position : Vec3
  castShadow : Bool
  receiveShadow : Bool
  deriving DecidableEq

/-- A named group of objects, modelling the `THREE.Group` that
`createBaseplate` fills with tiles and adds to the scene. -/
structure SceneGroup where
  name : String
  children : List Tile
  deriving DecidableEq

/-- `const tilesX = Math.ceil(width / tileSize)` — number of tile columns. -/
def tilesX (width tileSize : ℚ) : ℤ :=
  ⌈width / tileSize⌉

/-- `const tilesZ = Math.ceil(length / tileSize)` — number of tile rows. -/
def tilesZ (length tileSize : ℚ) : ℤ :=
  ⌈length / tileSize⌉

/-- `const offsetX = (tilesX * tileSize) / 2 - tileSize / 2`. -/
def offsetX (width tileSize : ℚ) : ℚ :=
  (tilesX width tileSize * tileSize) / 2 - tileSize / 2

/-- `const offsetZ = (tilesZ * tileSize) / 2 - tileSize / 2`. -/
def offsetZ (length tileSize : ℚ) : ℚ :=
  (tilesZ length tileSize * tileSize) / 2 - tileSize / 2

/-- The asset-loading branch of `createBaseplate` (`useTileAsset = true`):
for each grid cell it computes `posX`/`posZ`, loads the tile model, sets its
position to `(posX, yPosition, posZ)` and `setShadow(tile, false, true)`.
The loader callback is modelled as running immediately, in loop order. -/
def assetTiles (width length yPosition tileSize : ℚ) : List Tile :=
  (List.range (tilesX width tileSize).toNat).flatMap fun (x : ℕ) =>
    (List.range (tilesZ length tileSize).toNat).map fun (z : ℕ) =>
      let posX : ℚ := x * tileSize - offsetX width tileSize
      let posZ : ℚ := z * tileSize - offsetZ length tileSize
      { position := ⟨posX, yPosition, posZ⟩
        castShadow := false
        receiveShadow := true }

/-- The simple-geometry branch of `createBaseplate` (`useTileAsset = false`):
for each grid cell it builds a box mesh at
`((x * tileSize) - offsetX, yPosition, (z * tileSize) - offsetZ)` with
`receiveShadow = true`, `castShadow = false`. -/
def simpleTiles (width length yPosition tileSize : ℚ) : List Tile :=
  (List.range (tilesX width tileSize).toNat).flatMap fun (x : ℕ) =>
    (List.range (tilesZ length tileSize).toNat).map fun (z : ℕ) =>
      { position := ⟨x * tileSize - offsetX width tileSize, yPosition,
                     z * tileSize - offsetZ length tileSize⟩
        castShadow := false
        receiveShadow := true }

/-- `const useTileAsset = true` — the hardcoded branch selector. -/
def useTileAsset : Bool := true

/-- `createBaseplate(scene, width, length, yPosition, tileSize)`: builds the
"Baseplate" group from one of the two tile branches, adds it to the scene
(`scene.add(baseplate)`) and returns it. The scene is modelled as the list
of its top-level groups; the result pairs the updated scene with the
returned group. In the source `yPosition` defaults to -4 and `tileSize`
to 4; callers here pass them explicitly. -/
def createBaseplate (scene : List SceneGroup) (width length yPosition tileSize : ℚ) :
    List SceneGroup × SceneGroup :=
  let baseplate : SceneGroup :=
    { name := "Baseplate"
      children :=
        if useTileAsset then assetTiles width length yPosition tileSize
        else simpleTiles width length yPosition tileSize }
  (scene ++ [baseplate], baseplate)

/-- The sequence of tile placement positions produced by `createBaseplate`,
in loop order — the "layout computation" of the spec. -/
def tilePositions (width length yPosition tileSize : ℚ) : List Vec3 :=
  ((createBaseplate [] width length yPosition tileSize).2.children).map Tile.position

/-- `setupEnvironment(scene, baseplateWidth, baseplateLength)`: calls
`createBaseplate(scene, width, length, position.y)` with `position.y = -4`
and the default `tileSize = 4`, returning the updated scene. -/
def setupEnvironment (scene : List SceneGroup) (baseplateWidth baseplateLength : ℚ) :
    List SceneGroup :=
  (createBaseplate scene baseplateWidth baseplateLength (-4) 4).1

/-- The generate-button click handler in `main.js`: it tears down the page
and calls `init(parseInt(widthInput.value), parseInt(lengthInput.value))`
with no validation of the parsed values; `init` builds a fresh scene and
calls `setupEnvironment` on it. Modelled as the scene contents produced
from the two parsed numbers. -/
def generateClickScene (widthValue lengthValue : ℚ) : List SceneGroup :=
  setupEnvironment [] widthValue lengthValue

/-- Helper: the tile `createBaseplate` places at grid cell `(i, j)`. -/
def tileAt (width length yPosition tileSize : ℚ) (i j : ℕ) : Tile :=
  { position := ⟨i * tileSize - offsetX width tileSize, yPosition,
                 j * tileSize - offsetZ length tileSize⟩
    castShadow := false
    receiveShadow := true }

theorem grid_length {β : Type} (n m : ℕ) (f : ℕ → ℕ → β) :
    ((List.range n).flatMap fun i => (List.range m).map (f i)).length = n * m := by
  induction n with
  | zero => simp
  | succ k ih => rw [List.range_succ]; simp [ih, Nat.succ_mul]

theorem length_tilePositions (width length yPosition tileSize : ℚ) :
    (tilePositions width length yPosition tileSize).length
      = (tilesX width tileSize).toNat * (tilesZ length tileSize).toNat := by
  simp only [tilePositions, createBaseplate, useTileAsset, if_true, List.length_map,
    assetTiles]
  exact grid_length _ _ _

theorem mem_assetTiles (width length yPosition tileSize : ℚ) (p : Tile) :
    p ∈ assetTiles width length yPosition tileSize ↔
      ∃ i, i < (tilesX width tileSize).toNat ∧
        ∃ j, j < (tilesZ length tileSize).toNat ∧
          p = tileAt width length yPosition tileSize i j := by
  unfold assetTiles
  constructor
  · intro hp
    obtain ⟨i, hi, hp⟩ := List.mem_flatMap.1 hp
    obtain ⟨j, hj, hp⟩ := List.mem_map.1 hp
    exact ⟨i, List.mem_range.1 hi, j, List.mem_range.1 hj, hp.symm⟩
  · rintro ⟨i, hi, j, hj, rfl⟩
    exact List.mem_flatMap.2 ⟨i, List.mem_range.2 hi,
      List.mem_map.2 ⟨j, List.mem_range.2 hj, rfl⟩⟩

theorem mem_tilePositions (width length yPosition tileSize : ℚ) (v : Vec3) :
    v ∈ tilePositions width length yPosition tileSize ↔
      ∃ i, i < (tilesX width tileSize).toNat ∧
        ∃ j, j < (tilesZ length tileSize).toNat ∧
          v = ⟨i * tileSize - offsetX width tileSize, yPosition,
               j * tileSize - offsetZ length tileSize⟩ := by
  simp only [tilePositions, createBaseplate, useTileAsset, if_true, List.mem_map]
  constructor
  · rintro ⟨p, hp, rfl⟩
    obtain ⟨i, hi, j, hj, rfl⟩ := (mem_assetTiles width length yPosition tileSize p).1 hp
    exact ⟨i, hi, j, hj, rfl⟩
  · rintro ⟨i, hi, j, hj, rfl⟩
    exact ⟨tileAt width length yPosition tileSize i j,
      (mem_assetTiles width length yPosition tileSize _).2 ⟨i, hi, j, hj, rfl⟩, rfl⟩

theorem tilesX_pos (width tileSize : ℚ) (hw : 0 < width) (ht : 0 < tileSize) :
    0 < tilesX width tileSize :=
  Int.ceil_pos.2 (div_pos hw ht)

theorem tilesZ_pos (length tileSize : ℚ) (hl : 0 < length) (ht : 0 < tileSize) :
    0 < tilesZ length tileSize :=
  Int.ceil_pos.2 (div_pos hl ht)

theorem tilesX_toNat_cast (width tileSize : ℚ) (hw : 0 < width) (ht : 0 < tileSize) :
    (((tilesX width tileSize).toNat : ℤ) : ℚ) = ((tilesX width tileSize : ℤ) : ℚ) := by
  rw [Int.toNat_of_nonneg (le_of_lt (tilesX_pos width tileSize hw ht))]

theorem tilesZ_toNat_cast (length tileSize : ℚ) (hl : 0 < length) (ht : 0 < tileSize) :
    (((tilesZ length tileSize).toNat : ℤ) : ℚ) = ((tilesZ length tileSize : ℤ) : ℚ) := by
  rw [Int.toNat_of_nonneg (le_of_lt (tilesZ_pos length tileSize hl ht))]

/-- C1: for every width > 0, length > 0, tileSize > 0, the layout produces
exactly tilesX * tilesZ tile placements (the two nested loops of
createBaseplate each run exactly that many iterations, one placement per
grid cell), where tilesX = ceil(width / tileSize) and
tilesZ = ceil(length / tileSize). -/
theorem C1_placement_count (width length yPosition tileSize : ℚ)
    (hw : 0 < width) (hl : 0 < length) (ht : 0 < tileSize) :
    ((tilePositions width length yPosition tileSize).length : ℤ)
      = tilesX width tileSize * tilesZ length tileSize := by
  rw [length_tilePositions]
  push_cast
  rw [Int.toNat_of_nonneg (le_of_lt (tilesX_pos width tileSize hw ht)),
      Int.toNat_of_nonneg (le_of_lt (tilesZ_pos length tileSize hl ht))]

theorem C1_placement_count_witness :
    (0 : ℚ) < 100 ∧ (0 : ℚ) < 4 ∧
    ((tilePositions 100 100 (-4) 4).length : ℤ) = tilesX 100 4 * tilesZ 100 4 :=
  ⟨by norm_num, by norm_num,
    C1_placement_count 100 100 (-4) 4 (by norm_num) (by norm_num) (by norm_num)⟩

/-- C4: for every width > 0, length > 0, tileSize > 0 the grid footprint
covers at least the requested width × length rectangle:
tilesX * tileSize ≥ width and tilesZ * tileSize ≥ length, with
tilesX = ceil(width / tileSize) and tilesZ = ceil(length / tileSize). -/
theorem C4_footprint_covers (width length tileSize : ℚ)
    (hw : 0 < width) (hl : 0 < length) (ht : 0 < tileSize) :
    width ≤ (tilesX width tileSize : ℚ) * tileSize ∧
    length ≤ (tilesZ length tileSize : ℚ) * tileSize := by
  constructor
  · have h := Int.le_ceil (width / tileSize)
    rw [div_le_iff₀ ht] at h
    exact h
  · have h := Int.le_ceil (length / tileSize)
    rw [div_le_iff₀ ht] at h
    exact h

theorem C4_footprint_covers_witness :
    (0 : ℚ) < 22 ∧ (0 : ℚ) < 4 ∧
    (22 : ℚ) ≤ (tilesX 22 4 : ℚ) * 4 ∧ (22 : ℚ) ≤ (tilesZ 22 4 : ℚ) * 4 :=
  ⟨by norm_num, by norm_num,
    C4_footprint_covers 22 22 4 (by norm_num) (by norm_num) (by norm_num)⟩

/-- C6: every placement produced has its y coordinate equal to the given
plate height unchanged, for all tiles in both the asset-loading branch and
the simple-geometry branch of createBaseplate. -/
theorem C6_y_equals_plate_height (width length yPosition tileSize : ℚ) :
    ((assetTiles width length yPosition tileSize).all fun p =>
        decide (p.position.y = yPosition)) = true ∧
    ((simpleTiles width length yPosition tileSize).all fun p =>
        decide (p.position.y = yPosition)) = true := by
  have key : ((assetTiles width length yPosition tileSize).all fun p =>
      decide (p.position.y = yPosition)) = true := by
    rw [List.all_eq_true]
    intro p hp
    obtain ⟨i, hi, j, hj, rfl⟩ := (mem_assetTiles width length yPosition tileSize p).1 hp
    simp [tileAt]
  exact ⟨key, key⟩

/-- C7: the layout computation is deterministic — the baseplate group
returned by createBaseplate does not depend on the incoming scene, and two
invocations with identical numeric inputs yield the identical placement
sequence. -/
theorem C7_deterministic (scene1 scene2 : List SceneGroup)
    (width length yPosition tileSize : ℚ) :
    (createBaseplate scene1 width length yPosition tileSize).2
      = (createBaseplate scene2 width length yPosition tileSize).2 ∧
    tilePositions width length yPosition tileSize
      = tilePositions width length yPosition tileSize :=
  ⟨rfl, rfl⟩

/-- C8: the layout computation is pure and frame-respecting:
createBaseplate's only effect on the scene is appending the baseplate
group (all prior scene contents are untouched), the group's tile positions
are exactly the pure placement sequence tilePositions of the numeric
inputs, and the group itself is independent of the scene state. -/
theorem C8_pure_layout (scene : List SceneGroup) (width length yPosition tileSize : ℚ) :
    (createBaseplate scene width length yPosition tileSize).1
      = scene ++ [(createBaseplate scene width length yPosition tileSize).2] ∧
    ((createBaseplate scene width length yPosition tileSize).2.children).map Tile.position
      = tilePositions width length yPosition tileSize ∧
    (createBaseplate scene width length yPosition tileSize).2
      = (createBaseplate [] width length yPosition tileSize).2 :=
  ⟨rfl, rfl, rfl⟩

/-- C10: the asset-loading branch (useTileAsset = true) and the
simple-geometry branch (useTileAsset = false) of createBaseplate compute
the same sequence of tile positions, iterating the grid cells in the same
order with position ((x * tileSize) - offsetX, yPosition,
(z * tileSize) - offsetZ). -/
theorem C10_branch_positions_equal (width length yPosition tileSize : ℚ) :
    (assetTiles width length yPosition tileSize).map Tile.position
      = (simpleTiles width length yPosition tileSize).map Tile.position :=
  rfl

theorem tilesX_eq_one (width tileSize : ℚ) (hw : 0 < width) (hwt : width < tileSize) :
    tilesX width tileSize = 1 := by
  have ht : 0 < tileSize := lt_trans hw hwt
  refine le_antisymm (Int.ceil_le.2 ?_) (tilesX_pos width tileSize hw ht)
  push_cast
  exact le_of_lt ((div_lt_one ht).2 hwt)

theorem tilesZ_eq_one (length tileSize : ℚ) (hl : 0 < length) (hlt : length < tileSize) :
    tilesZ length tileSize = 1 := by
  have ht : 0 < tileSize := lt_trans hl hlt
  refine le_antisymm (Int.ceil_le.2 ?_) (tilesZ_pos length tileSize hl ht)
  push_cast
  exact le_of_lt ((div_lt_one ht).2 hlt)

/-- C5: when 0 < width < tileSize the column count still evaluates to 1, when
0 < length < tileSize the row count still evaluates to 1, and when both are
smaller than tileSize the layout is a single placement centered at
x = 0, z = 0. -/
theorem C5_single_centered_tile (width length yPosition tileSize : ℚ) :
    (0 < width → width < tileSize → tilesX width tileSize = 1) ∧
    (0 < length → length < tileSize → tilesZ length tileSize = 1) ∧
    (0 < width → width < tileSize → 0 < length → length < tileSize →
      tilePositions width length yPosition tileSize = [⟨0, yPosition, 0⟩]) := by
  refine ⟨tilesX_eq_one width tileSize, tilesZ_eq_one length tileSize, ?_⟩
  intro hw hwt hl hlt
  have hx := tilesX_eq_one width tileSize hw hwt
  have hz := tilesZ_eq_one length tileSize hl hlt
  have hox : offsetX width tileSize = 0 := by
    simp only [offsetX, hx]
    push_cast
    ring
  have hoz : offsetZ length tileSize = 0 := by
    simp only [offsetZ, hz]
    push_cast
    ring
  simp only [tilePositions, createBaseplate, useTileAsset, if_true, assetTiles,
    hx, hz, hox, hoz]
  have hr : List.range 1 = [0] := rfl
  simp [hr]

theorem C5_single_centered_tile_witness :
    tilesX 2 4 = 1 ∧ tilesZ 3 4 = 1 ∧ tilePositions 2 3 5 4 = [⟨0, 5, 0⟩] :=
  ⟨(C5_single_centered_tile 2 3 5 4).1 (by norm_num) (by norm_num),
   (C5_single_centered_tile 2 3 5 4).2.1 (by norm_num) (by norm_num),
   (C5_single_centered_tile 2 3 5 4).2.2 (by norm_num) (by norm_num)
     (by norm_num) (by norm_num)⟩

theorem tilesX_nonpos (width tileSize : ℚ) (hw : width ≤ 0) (ht : 0 < tileSize) :
    tilesX width tileSize ≤ 0 := by
  refine Int.ceil_le.2 ?_
  push_cast
  exact div_nonpos_of_nonpos_of_nonneg hw (le_of_lt ht)

/-- C9 counterexample: at the concrete invalid input width = -5 (with
length = 100) the generate-click path performs no validation: the layout
code in createBaseplate receives the value and silently yields a scene
holding a baseplate with zero tiles — no user-visible message and no
fail-fast, contradicting the claim that such inputs are rejected before
reaching the calculator. -/
theorem C9_counterexample_no_rejection :
    generateClickScene (-5) 100 = [{ name := "Baseplate", children := [] }] := by
  have hx : (tilesX (-5) 4).toNat = 0 := by
    rw [Int.toNat_eq_zero]
    exact Int.ceil_le.2 (by norm_num)
  simp [generateClickScene, setupEnvironment, createBaseplate, useTileAsset,
    assetTiles, hx]

/-- C9 (amended): invalid dimensions are not rejected and no validation
message is produced — the click handler in main.js passes the parsed
values straight through, and for any width ≤ 0 the layout loops in
createBaseplate run zero times, so the scene ends up with an empty
baseplate instead of a rejection or a fail-fast error. -/
theorem C9_invalid_width_silently_empty (widthValue lengthValue : ℚ)
    (hw : widthValue ≤ 0) :
    generateClickScene widthValue lengthValue
      = [{ name := "Baseplate", children := [] }] := by
  have hx : (tilesX widthValue 4).toNat = 0 :=
    Int.toNat_eq_zero.2 (tilesX_nonpos widthValue 4 hw (by norm_num))
  simp [generateClickScene, setupEnvironment, createBaseplate, useTileAsset,
    assetTiles, hx]

theorem C9_invalid_width_silently_empty_witness :
    (-7 : ℚ) ≤ 0 ∧
    generateClickScene (-7) 50 = [{ name := "Baseplate", children := [] }] :=
  ⟨by norm_num, C9_invalid_width_silently_empty (-7) 50 (by norm_num)⟩

/-- C3: for width = 100, length = 100, tileSize = 4 the layout yields
25 columns and 25 rows, hence 625 placements, and the placement x and z
coordinates range over the 25 values 4*k - 48 for k < 25, i.e. from -48
to 48 in steps of 4, arranged one placement per grid cell. -/
theorem C3_concrete_scenario (yPosition : ℚ) :
    tilesX 100 4 = 25 ∧ tilesZ 100 4 = 25 ∧
    (tilePositions 100 100 yPosition 4).length = 625 ∧
    tilePositions 100 100 yPosition 4
      = (List.range 25).flatMap fun (i : ℕ) => (List.range 25).map fun (j : ℕ) =>
          Vec3.mk ((i : ℚ) * 4 - 48) yPosition ((j : ℚ) * 4 - 48) := by
  have hx : tilesX 100 4 = 25 := by norm_num [tilesX]
  have hz : tilesZ 100 4 = 25 := by norm_num [tilesZ]
  have hox : offsetX 100 4 = 48 := by rw [offsetX, hx]; norm_num
  have hoz : offsetZ 100 4 = 48 := by rw [offsetZ, hz]; norm_num
  refine ⟨hx, hz, ?_, ?_⟩
  · rw [length_tilePositions, hx, hz]
    rfl
  · simp only [tilePositions, createBaseplate, useTileAsset, if_true, assetTiles,
      hx, hz, hox, hoz, List.map_flatMap, List.map_map]
    rfl

/-- C2: for positive width, length, tileSize the grid is centered on the
origin: every placement sits at (i * tileSize - offsetX, yPosition,
j * tileSize - offsetZ) for grid indices i < tilesX, j < tilesZ with
offsetX = (tilesX * tileSize)/2 - tileSize/2 (likewise offsetZ), and the
minimum x among placements is the negation of the maximum x, and likewise
for z. -/
theorem C2_centered_grid (width length yPosition tileSize : ℚ)
    (hw : 0 < width) (hl : 0 < length) (ht : 0 < tileSize) :
    offsetX width tileSize = (tilesX width tileSize * tileSize) / 2 - tileSize / 2 ∧
    offsetZ length tileSize = (tilesZ length tileSize * tileSize) / 2 - tileSize / 2 ∧
    (∀ p ∈ tilePositions width length yPosition tileSize,
      ∃ i j : ℕ, (i : ℤ) < tilesX width tileSize ∧ (j : ℤ) < tilesZ length tileSize ∧
        p.x = i * tileSize - offsetX width tileSize ∧
        p.z = j * tileSize - offsetZ length tileSize) ∧
    (∃ pmin ∈ tilePositions width length yPosition tileSize,
      ∃ pmax ∈ tilePositions width length yPosition tileSize,
        pmin.x = -pmax.x ∧
        ∀ p ∈ tilePositions width length yPosition tileSize,
          pmin.x ≤ p.x ∧ p.x ≤ pmax.x) ∧
    (∃ qmin ∈ tilePositions width length yPosition tileSize,
      ∃ qmax ∈ tilePositions width length yPosition tileSize,
        qmin.z = -qmax.z ∧
        ∀ p ∈ tilePositions width length yPosition tileSize,
          qmin.z ≤ p.z ∧ p.z ≤ qmax.z) := by
  have ht0 : (0 : ℚ) ≤ tileSize := le_of_lt ht
  have hXpos := tilesX_pos width tileSize hw ht
  have hZpos := tilesZ_pos length tileSize hl ht
  have hnX : 0 < (tilesX width tileSize).toNat := by omega
  have hnZ : 0 < (tilesZ length tileSize).toNat := by omega
  have hX : (((tilesX width tileSize).toNat : ℕ) : ℚ) = ((tilesX width tileSize : ℤ) : ℚ) := by
    rw [← Int.cast_natCast, Int.toNat_of_nonneg (le_of_lt hXpos)]
  have hZ : (((tilesZ length tileSize).toNat : ℕ) : ℚ) = ((tilesZ length tileSize : ℤ) : ℚ) := by
    rw [← Int.cast_natCast, Int.toNat_of_nonneg (le_of_lt hZpos)]
  have hsubX : (((tilesX width tileSize).toNat - 1 : ℕ) : ℚ)
      = ((tilesX width tileSize : ℤ) : ℚ) - 1 := by
    rw [Nat.cast_sub hnX, hX, Nat.cast_one]
  have hsubZ : (((tilesZ length tileSize).toNat - 1 : ℕ) : ℚ)
      = ((tilesZ length tileSize : ℤ) : ℚ) - 1 := by
    rw [Nat.cast_sub hnZ, hZ, Nat.cast_one]
  refine ⟨rfl, rfl, ?_, ?_, ?_⟩
  · intro p hp
    obtain ⟨i, hi, j, hj, rfl⟩ := (mem_tilePositions width length yPosition tileSize p).1 hp
    exact ⟨i, j, by omega, by omega, rfl, rfl⟩
  · refine ⟨⟨((0 : ℕ) : ℚ) * tileSize - offsetX width tileSize, yPosition,
        ((0 : ℕ) : ℚ) * tileSize - offsetZ length tileSize⟩,
      (mem_tilePositions width length yPosition tileSize _).2 ⟨0, hnX, 0, hnZ, rfl⟩,
      ⟨((((tilesX width tileSize).toNat - 1 : ℕ)) : ℚ) * tileSize - offsetX width tileSize,
        yPosition,
        ((((tilesZ length tileSize).toNat - 1 : ℕ)) : ℚ) * tileSize - offsetZ length tileSize⟩,
      (mem_tilePositions width length yPosition tileSize _).2
        ⟨(tilesX width tileSize).toNat - 1, by omega,
         (tilesZ length tileSize).toNat - 1, by omega, rfl⟩,
      ?_, ?_⟩
    · dsimp only
      rw [hsubX]
      simp only [offsetX]
      push_cast
      ring
    · intro p hp
      obtain ⟨i, hi, j, hj, rfl⟩ :=
        (mem_tilePositions width length yPosition tileSize p).1 hp
      constructor
      · dsimp only
        refine sub_le_sub_right (mul_le_mul_of_nonneg_right ?_ ht0) _
        exact_mod_cast Nat.zero_le i
      · dsimp only
        refine sub_le_sub_right (mul_le_mul_of_nonneg_right ?_ ht0) _
        exact_mod_cast (by omega : i ≤ (tilesX width tileSize).toNat - 1)
  · refine ⟨⟨((0 : ℕ) : ℚ) * tileSize - offsetX width tileSize, yPosition,
        ((0 : ℕ) : ℚ) * tileSize - offsetZ length tileSize⟩,
      (mem_tilePositions width length yPosition tileSize _).2 ⟨0, hnX, 0, hnZ, rfl⟩,
      ⟨((((tilesX width tileSize).toNat - 1 : ℕ)) : ℚ) * tileSize - offsetX width tileSize,
        yPosition,
        ((((tilesZ length tileSize).toNat - 1 : ℕ)) : ℚ) * tileSize - offsetZ length tileSize⟩,
      (mem_tilePositions width length yPosition tileSize _).2
        ⟨(tilesX width tileSize).toNat - 1, by omega,
         (tilesZ length tileSize).toNat - 1, by omega, rfl⟩,
      ?_, ?_⟩
    · dsimp only
      rw [hsubZ]
      simp only [offsetZ]
      push_cast
      ring
    · intro p hp
      obtain ⟨i, hi, j, hj, rfl⟩ :=
        (mem_tilePositions width length yPosition tileSize p).1 hp
      constructor
      · dsimp only
        refine sub_le_sub_right (mul_le_mul_of_nonneg_right ?_ ht0) _
        exact_mod_cast Nat.zero_le j
      · dsimp only
        refine sub_le_sub_right (mul_le_mul_of_nonneg_right ?_ ht0) _
        exact_mod_cast (by omega : j ≤ (tilesZ length tileSize).toNat - 1)

theorem C2_centered_grid_witness :
    (0 : ℚ) < 100 ∧ (0 : ℚ) < 80 ∧ (0 : ℚ) < 4 ∧
    (offsetX 100 4 = (tilesX 100 4 * 4) / 2 - 4 / 2 ∧
     offsetZ 80 4 = (tilesZ 80 4 * 4) / 2 - 4 / 2 ∧
     (∀ p ∈ tilePositions 100 80 (-4) 4,
       ∃ i j : ℕ, (i : ℤ) < tilesX 100 4 ∧ (j : ℤ) < tilesZ 80 4 ∧
         p.x = i * 4 - offsetX 100 4 ∧ p.z = j * 4 - offsetZ 80 4) ∧
     (∃ pmin ∈ tilePositions 100 80 (-4) 4,
       ∃ pmax ∈ tilePositions 100 80 (-4) 4,
         pmin.x = -pmax.x ∧
         ∀ p ∈ tilePositions 100 80 (-4) 4, pmin.x ≤ p.x ∧ p.x ≤ pmax.x) ∧
     (∃ qmin ∈ tilePositions 100 80 (-4) 4,
       ∃ qmax ∈ tilePositions 100 80 (-4) 4,
         qmin.z = -qmax.z ∧
         ∀ p ∈ tilePositions 100 80 (-4) 4, qmin.z ≤ p.z ∧ p.z ≤ qmax.z)) :=
  ⟨by norm_num, by norm_num, by norm_num,
    C2_centered_grid 100 80 (-4) 4 (by norm_num) (by norm_num) (by norm_num)⟩
